import Mathlib

/-!
Verification of the trading-bot order-execution server (`server.py`).

The webhook flow, the leverage configurator (`set_leverage`), the entry
executor (`place_entry_order`) and the bracket manager (`place_sl_tp_orders`)
are embedded shallowly.  Python floats are modelled by `PyFloat` (NaN or an
exact rational; finite binary precision is not modelled).  Every exchange
call and every outbound notification is recorded in a trace of `Call`
events; the venue's responses are supplied by an environment record, so the
sequential flow becomes a pure function from (payload, environment) to
(HTTP response, call trace).
-/

namespace TradingBot

/-- Model of a Python float value: NaN, or an exact rational.  Finite binary
precision and signed zero are not modelled; all comparisons with NaN are
false, as in IEEE 754 / Python. -/
inductive PyFloat where
  | nan
  | num (q : ℚ)
deriving DecidableEq, Repr

/-- Python `a > b` on floats: false whenever either side is NaN. -/
def PyFloat.gt : PyFloat → PyFloat → Bool
  | .num a, .num b => decide (b < a)
  | _, _ => false

/-- Python `a <= b` on floats: false whenever either side is NaN. -/
def PyFloat.le : PyFloat → PyFloat → Bool
  | .num a, .num b => decide (a ≤ b)
  | _, _ => false

/-- Python float division (call sites guard against a zero divisor);
NaN propagates. -/
def PyFloat.div : PyFloat → PyFloat → PyFloat
  | .num a, .num b => .num (a / b)
  | _, _ => .nan

/-- Python whitespace (the characters `str.strip` removes by default, in
the subset relevant here). -/
def isSpaceChar (c : Char) : Bool := c == ' ' || c == '\t' || c == '\n' || c == '\r'

/-- Python `s.upper()` (ASCII). -/
def pyUpper (s : String) : String := ⟨s.data.map Char.toUpper⟩

/-- Python `s.lower()` (ASCII). -/
def pyLower (s : String) : String := ⟨s.data.map Char.toLower⟩

/-- Python `s.strip()`: drop whitespace from both ends. -/
def pyStrip (s : String) : String :=
  ⟨((s.data.dropWhile isSpaceChar).reverse.dropWhile isSpaceChar).reverse⟩

/-- The value of a decimal digit character, `none` for anything else. -/
def digitVal? (c : Char) : Option Nat :=
  if 48 ≤ c.toNat ∧ c.toNat ≤ 57 then some (c.toNat - 48) else none

/-- Read a run of decimal digits as a number (`none` on a non-digit). -/
def decDigits? (l : List Char) (acc : Nat) : Option Nat :=
  match l with
  | [] => some acc
  | c :: rest =>
    match digitVal? c with
    | some d => decDigits? rest (acc * 10 + d)
    | none => none

/-- Parse a nonempty all-digit run. -/
def toNatAll? (l : List Char) : Option Nat :=
  if l = [] then none else decDigits? l 0

/-- Split a character list at the dots (Python `s.split('.')`). -/
def splitDot (l : List Char) (acc : List Char) : List (List Char) :=
  match l with
  | [] => [acc.reverse]
  | c :: rest =>
    if c = '.' then acc.reverse :: splitDot rest []
    else splitDot rest (c :: acc)

/-- Model of Python `float(s)` on strings, covering the input forms this
development exercises: optional surrounding whitespace, optional sign,
`nan` (any letter case), and plain decimal literals `123`, `123.4`, `1.`,
`.5`.  Exponents, underscores and infinities are outside the modelled
subset and are mapped to `none` (a parse failure). -/
def pyFloatOfString (s : String) : Option PyFloat :=
  let t := (pyStrip s).data.map Char.toLower
  let neg := t.head? = some '-'
  let u := if t.head? = some '-' ∨ t.head? = some '+' then t.tail else t
  if u = ['n', 'a', 'n'] then some .nan
  else
    match splitDot u [] with
    | [a] => (toNatAll? a).map fun n => .num (if neg then -(n : ℚ) else (n : ℚ))
    | [a, b] =>
      if a = [] ∧ b = [] then none
      else
        match (if a = [] then some 0 else toNatAll? a),
              (if b = [] then some 0 else toNatAll? b) with
        | some ai, some bi =>
          let m : ℚ := (ai : ℚ) + (bi : ℚ) / ((10 : ℚ) ^ b.length)
          some (.num (if neg then -m else m))
        | _, _ => none
    | _ => none

-- STRATEGY CONFIGURATION (server.py lines 28-31)
def TRADE_SYMBOL : String := "BTCUSDC"
def LEVERAGE : Nat := 125
def FIXED_STOP_LOSS_POINTS : ℚ := 200
def FIXED_TAKE_PROFIT_POINTS : ℚ := 1300

/-- Outcome of a single call to the venue client: a normal response, a
`binance.error.ClientError` (HTTP status, venue error code, message), or
some other exception. -/
inductive ApiResult (α : Type) where
  | ok (val : α)
  | clientError (status : Int) (code : Int) (msg : String)
  | exn (msg : String)
deriving DecidableEq, Repr

/-- One observable outbound effect: an exchange-client call, or a Telegram
notification (`send_telegram_message`; the message text is not modelled). -/
inductive Call where
  | changeLeverage (symbol : String) (leverage : Nat)
  | newOrder (symbol side otype : String) (quantity : Option PyFloat)
      (stopPrice : Option String) (closePosition reduceOnly : Bool)
      (timeInForce : Option String)
  | getOpenOrders (symbol : String)
  | cancelOrder (symbol : String) (orderId : Nat)
  | notify
deriving DecidableEq, Repr

/-- The symbol an exchange call is addressed to (`none` for notifications). -/
def callSymbol : Call → Option String
  | .changeLeverage s _ => some s
  | .newOrder s _ _ _ _ _ _ _ => some s
  | .getOpenOrders s => some s
  | .cancelOrder s _ => some s
  | .notify => none

/-- Whether a call is a market-order submission (an entry order). -/
def isMarketOrder : Call → Bool
  | .newOrder _ _ t _ _ _ _ _ => t == "MARKET"
  | _ => false

/-- Substring containment, modelling Python's `in` on strings. -/
def containsSub (hay pat : String) : Bool := decide (pat.data <:+: hay.data)

/-- The character for a single decimal digit `d % 10`. -/
def digitChr (d : Nat) : Char := Char.ofNat (48 + d % 10)

/-- Decimal digit string of `n` (most significant first), fuelled so it
reduces structurally. -/
def natStrAux (fuel n : Nat) : List Char :=
  match fuel with
  | 0 => []
  | f + 1 => if n = 0 then [] else natStrAux f (n / 10) ++ [digitChr (n % 10)]

/-- Decimal rendering of a natural number. -/
def natStr (n : Nat) : String :=
  if n = 0 then "0" else ⟨natStrAux n n⟩

/-- Round-half-even to an integer, as Python uses for `format`/`round`. -/
def roundHalfEven (x : ℚ) : ℤ :=
  let f := ⌊x⌋
  let r := x - (f : ℚ)
  if r < 1 / 2 then f
  else if 1 / 2 < r then f + 1
  else if 2 ∣ f then f else f + 1

/-- Model of the Python f-string `f"\x7bx:.1f\x7d"`: round to one decimal
place (half-even) and render with exactly one digit after the point.
The rounding acts on the ideal rational value; the binary-float
representation error of the real `format` is not modelled. -/
def formatTenth (x : ℚ) : String :=
  let n : ℤ := roundHalfEven (10 * x)
  let sgn := if n < 0 then "-" else ""
  sgn ++ natStr (n.natAbs / 10) ++ "." ++ natStr (n.natAbs % 10)

-- ## Leverage configurator (server.py, `set_leverage`, lines 66-89)

/-- The venue's response to `change_leverage` (the `leverage` field read by
the code; other fields are unused). -/
structure LevResponse where
  leverage : Option Nat
deriving DecidableEq, Repr

/-- Result of `set_leverage`: success flag, message, and the calls made. -/
structure LevOut where
  ok : Bool
  msg : String
  calls : List Call
deriving DecidableEq, Repr

/-- `set_leverage(symbol, leverage)` of server.py:  calls
`change_leverage`; any normal response counts as success; a `ClientError`
whose message contains "No need to change leverage" is success; any other
error is failure.  `clientOk` models `binance_client` being initialized,
`resp` the venue's reply. -/
def set_leverage (clientOk : Bool) (resp : ApiResult LevResponse)
    (leverage : Nat) : LevOut :=
  if clientOk = false then ⟨false, "Binance client not initialized.", []⟩
  else
    let ev := Call.changeLeverage TRADE_SYMBOL leverage
    match resp with
    | .ok r =>
      if r.leverage = some leverage then
        ⟨true, "Leverage set to " ++ toString leverage ++ "x (or already was).", [ev]⟩
      else
        ⟨true, "Leverage change requested to " ++ toString leverage ++ "x.", [ev]⟩
    | .clientError _ _ m =>
      if containsSub m "No need to change leverage" then
        ⟨true, "Leverage is already " ++ toString leverage ++ "x.", [ev]⟩
      else ⟨false, "Failed leverage: " ++ m, [ev]⟩
    | .exn m => ⟨false, "Unexpected error setting leverage: " ++ m, [ev]⟩

-- ## Entry executor (server.py, `place_entry_order`, lines 91-140)

/-- The order dict returned by `new_order`, restricted to the fields the
code reads.  The numeric string fields (`avgPrice`, `executedQty`,
`cumQuote`) are modelled by their parsed float values; `none` means the
field is absent (the code then applies its `.get` default). -/
structure OrderDict where
  orderId : Option Nat
  status : String
  avgPrice : Option PyFloat
  executedQty : Option PyFloat
  cumQuote : Option PyFloat
  side : Option String
deriving DecidableEq, Repr

/-- Python truthiness of `order.get('orderId')`: present and nonzero. -/
def orderIdTruthy : Option Nat → Bool
  | some n => n != 0
  | none => false

/-- `order.get('status') in ['NEW', 'FILLED', 'PARTIALLY_FILLED']`. -/
def okStatus (st : String) : Bool :=
  st == "NEW" || st == "FILLED" || st == "PARTIALLY_FILLED"

/-- How the entry executor settled the average fill price (server.py lines
112-127): taken from a positive `avgPrice` field, derived as
`cumQuote / executedQty`, or indeterminate (order accepted, price unknown). -/
inductive FillResolution where
  | fromAvgPrice (p : PyFloat)
  | derived (p : PyFloat)
  | indeterminateFill
deriving DecidableEq, Repr

/-- The three-step fill-price policy of `place_entry_order` (lines 112-127):
if `float(avgPrice) > 0` use it; else if `float(executedQty) > 0` use
`cumQuote / executedQty`; else the fill is indeterminate. -/
def resolve_fill_price (avgPrice executedQty cumQuote : PyFloat) : FillResolution :=
  if avgPrice.gt (PyFloat.num 0) then .fromAvgPrice avgPrice
  else if executedQty.gt (PyFloat.num 0) then .derived (cumQuote.div executedQty)
  else .indeterminateFill

/-- Result of `place_entry_order`: the (possibly avgPrice-updated) order
dict or `none` on failure, the message, and the calls made. -/
structure EntryOut where
  ord : Option OrderDict
  msg : String
  calls : List Call
deriving DecidableEq, Repr

/-- `place_entry_order(signal, quantity)` of server.py: submits a MARKET
order and resolves the fill price by `resolve_fill_price`, writing a
derived price back into the order dict.  A `ClientError`, an unexpected
exception, or a response failing the orderId/status guard yields `none`
(failure); an indeterminate fill still returns the order dict. -/
def place_entry_order (clientOk : Bool) (resp : ApiResult OrderDict)
    (signal : String) (quantity : PyFloat) : EntryOut :=
  if clientOk = false then ⟨none, "Binance Client not initialized.", []⟩
  else
    let trade_side := if pyUpper signal = "BUY" then "BUY" else "SELL"
    let ev := Call.newOrder TRADE_SYMBOL trade_side "MARKET" (some quantity)
      none false false none
    match resp with
    | .ok order =>
      if orderIdTruthy order.orderId && okStatus order.status then
        match resolve_fill_price (order.avgPrice.getD (PyFloat.num 0))
            (order.executedQty.getD (PyFloat.num 0))
            (order.cumQuote.getD (PyFloat.num 0)) with
        | .fromAvgPrice _ =>
          ⟨some order, "Futures entry order placed successfully.", [ev]⟩
        | .derived p =>
          ⟨some { order with avgPrice := some p },
            "Futures entry order placed (avgPrice calculated).", [ev]⟩
        | .indeterminateFill =>
          ⟨some order,
            "Order placed (ID: " ++ toString (order.orderId.getD 0) ++
              "), but fill details pending or quantity was zero.", [ev]⟩
      else
        ⟨none, "Order placement failed. Status: " ++ order.status ++ ".", [ev]⟩
    | .clientError _ _ m => ⟨none, "Binance API Error: " ++ m, [ev]⟩
    | .exn m => ⟨none, "Unexpected error placing entry order: " ++ m, [ev]⟩

-- ## Bracket manager (server.py, `place_sl_tp_orders`, lines 142-220)

/-- An entry in the `get_open_orders` response (the fields the code reads). -/
structure OpenOrder where
  orderId : Nat
  type : String
deriving DecidableEq, Repr

/-- Venue responses consumed by one `place_sl_tp_orders` run. -/
structure BracketEnv where
  openOrders : ApiResult (List OpenOrder)
  cancelRes : Nat → ApiResult Unit
  slRes : ApiResult Unit
  tpRes : ApiResult Unit

/-- `is_long = side.upper() == "BUY"` (line 145). -/
def is_long_side (side : String) : Bool := pyUpper side == "BUY"

/-- `stop_loss_price_str` (line 148): entry price minus the fixed stop-loss
offset for a long, plus it for a short, formatted to one decimal. -/
def stop_loss_price_str (side : String) (entry_price : ℚ) : String :=
  formatTenth (if is_long_side side then entry_price - FIXED_STOP_LOSS_POINTS
    else entry_price + FIXED_STOP_LOSS_POINTS)

/-- `take_profit_price_str` (line 149): entry price plus the fixed
take-profit offset for a long, minus it for a short, one decimal. -/
def take_profit_price_str (side : String) (entry_price : ℚ) : String :=
  formatTenth (if is_long_side side then entry_price + FIXED_TAKE_PROFIT_POINTS
    else entry_price - FIXED_TAKE_PROFIT_POINTS)

/-- `close_side` (line 150): the side opposite the entry side. -/
def close_side (side : String) : String :=
  if is_long_side side then "SELL" else "BUY"

/-- The `new_order` call shape of the stop-loss leg (lines 184-191). -/
def slOrderEvent (side : String) (entry_price : ℚ) : Call :=
  Call.newOrder TRADE_SYMBOL (close_side side) "STOP_MARKET" none
    (some (stop_loss_price_str side entry_price)) true false (some "GTC")

/-- The `new_order` call shape of the take-profit leg (lines 204-211). -/
def tpOrderEvent (side : String) (entry_price : ℚ) : Call :=
  Call.newOrder TRADE_SYMBOL (close_side side) "TAKE_PROFIT_MARKET" none
    (some (take_profit_price_str side entry_price)) true false (some "GTC")

/-- `order_ids_to_cancel` (lines 157-160): ids of the open orders whose
type is `STOP_MARKET` or `TAKE_PROFIT_MARKET`. -/
def slTpOrderIds (orders : List OpenOrder) : List Nat :=
  (orders.filter fun o => o.type == "STOP_MARKET" || o.type == "TAKE_PROFIT_MARKET").map
    OpenOrder.orderId

/-- The cancellation loop (lines 162-173): each id is cancelled in turn; a
`ClientError` with code `-2011` (order already filled/cancelled) and any
non-`ClientError` exception are logged and the loop continues; any other
`ClientError` is re-raised, abandoning the remaining cancellations (it is
then caught by the surrounding handler and ignored). -/
def cancelLoop (res : Nat → ApiResult Unit) : List Nat → List Call
  | [] => []
  | oid :: rest =>
    match res oid with
    | .ok _ => Call.cancelOrder TRADE_SYMBOL oid :: cancelLoop res rest
    | .clientError _ code _ =>
      if code = -2011 then Call.cancelOrder TRADE_SYMBOL oid :: cancelLoop res rest
      else [Call.cancelOrder TRADE_SYMBOL oid]
    | .exn _ => Call.cancelOrder TRADE_SYMBOL oid :: cancelLoop res rest

/-- The stop-loss line of `sl_tp_status` (lines 182-199). -/
def sl_status_line (slRes : ApiResult Unit) (side : String) (entry_price : ℚ) : String :=
  match slRes with
  | .ok _ => "✅ Stop-Loss target: $" ++ stop_loss_price_str side entry_price ++ "\n"
  | .clientError _ _ m => "❌ Failed SL: " ++ m ++ "\n"
  | .exn m => "❌ Unexpected SL error: " ++ m ++ "\n"

/-- The take-profit line of `sl_tp_status` (lines 202-219). -/
def tp_status_line (tpRes : ApiResult Unit) (side : String) (entry_price : ℚ) : String :=
  match tpRes with
  | .ok _ => "✅ Take-Profit target: $" ++ take_profit_price_str side entry_price
  | .clientError _ _ m => "❌ Failed TP: " ++ m
  | .exn m => "❌ Unexpected TP error: " ++ m

/-- The cancellation phase of `place_sl_tp_orders` (lines 153-179): list
the open orders and run the cancellation loop over the stale SL/TP order
ids; a failure of the listing itself is logged and ignored (best-effort). -/
def cancelPhase (benv : BracketEnv) : List Call :=
  Call.getOpenOrders TRADE_SYMBOL ::
    match benv.openOrders with
    | .ok open_orders => cancelLoop benv.cancelRes (slTpOrderIds open_orders)
    | _ => []

/-- `place_sl_tp_orders(side, entry_price)` of server.py, assembled from
the pieces above: the cancellation phase, then the stop-loss and the
take-profit close orders placed independently, accumulating a per-leg
status string.  Returns the status string and the trace of calls made. -/
def place_sl_tp_orders (clientOk : Bool) (benv : BracketEnv) (side : String)
    (entry_price : ℚ) : String × List Call :=
  if clientOk = false then ("Binance Client not initialized.", [])
  else
    let sl_tp_status := sl_status_line benv.slRes side entry_price ++
      tp_status_line benv.tpRes side entry_price
    (sl_tp_status,
      cancelPhase benv ++ [slOrderEvent side entry_price, tpOrderEvent side entry_price])

-- ## Webhook flow (server.py, `webhook`, lines 229-319)

/-- The inbound JSON payload, restricted to the fields the flow reads
(`action`, `qty`) plus display-only fields that are never read. -/
structure Payload where
  action : Option String
  qty : Option String
  ticker : Option String
  price : Option String
deriving DecidableEq, Repr

/-- `signal_type = data.get('action', '').upper().strip()` (line 260). -/
def signal_type (d : Payload) : String := pyStrip (pyUpper (d.action.getD ""))

/-- `float(data.get('qty', 0))` (line 267): a missing field defaults to
`0`; a present field is parsed as a Python float. -/
def parse_qty_field : Option String → Option PyFloat
  | none => some (PyFloat.num 0)
  | some s => pyFloatOfString s

/-- The quantity guard (lines 266-272): parse failure or `quantity <= 0`
raises, which the handler turns into a rejection (`none`); any other
parsed value — NaN included, since `nan <= 0` is false — passes through. -/
def validate_qty (field : Option String) : Option PyFloat :=
  match parse_qty_field field with
  | none => none
  | some q => if q.le (PyFloat.num 0) then none else some q

/-- The JSON reply: its `status` field and the HTTP status code. -/
structure Resp where
  status : String
  code : Nat
deriving DecidableEq, Repr

/-- Environment of one webhook invocation: client state and the venue's
responses to each call the flow can make. -/
structure Env where
  clientOk : Bool
  reinitOk : Bool
  levResp : ApiResult LevResponse
  entryResp : ApiResult OrderDict
  bracket : BracketEnv

/-- The gate at line 283-285: the entry order's `avgPrice`, if present,
truthy and `> 0`, becomes the entry price used for the bracket. -/
def entryAvgPriceGate : Option OrderDict → Option ℚ
  | none => none
  | some o =>
    match o.avgPrice with
    | some (.num q) => if 0 < q then some q else none
    | some .nan => none
    | none => none

/-- `order_side` (lines 287-290): the response's `side` if truthy, else the
fallback derived from the signal type. -/
def order_side_of (ord : Option OrderDict) (sig : String) : String :=
  let fallback := if sig = "BUY" then "BUY" else "SELL"
  match ord with
  | some o =>
    match o.side with
    | some s => if s = "" then fallback else s
    | none => fallback
  | none => fallback

/-- The `/webhook` POST handler of server.py as a pure function from the
parsed payload (`none` models an unparseable body) and the venue
environment to the JSON reply and the trace of outbound calls.  Flow:
client (re)initialization check, action filter (only `BUY`/`SELL`
proceed), quantity guard, `set_leverage`, `place_entry_order`, and — when
a positive fill price was resolved — `place_sl_tp_orders`. -/
def webhook (env : Env) (data : Option Payload) : Resp × List Call :=
  if env.clientOk = false ∧ env.reinitOk = false then (⟨"error", 500⟩, [Call.notify])
  else
    let initCalls : List Call := if env.clientOk then [] else [Call.notify]
    match data with
    | none => (⟨"error", 400⟩, initCalls)
    | some d =>
      let sig := signal_type d
      if ¬ (sig = "BUY" ∨ sig = "SELL") then
        (⟨"ignored, invalid action", 200⟩, initCalls)
      else
        match validate_qty d.qty with
        | none => (⟨"error", 400⟩, initCalls ++ [Call.notify])
        | some quantity =>
          let lev := set_leverage true env.levResp LEVERAGE
          if lev.ok = false then
            (⟨"error", 500⟩, initCalls ++ lev.calls ++ [Call.notify])
          else
            let entry := place_entry_order true env.entryResp sig quantity
            match entryAvgPriceGate entry.ord with
            | some entry_price =>
              let slTp := place_sl_tp_orders true env.bracket
                (order_side_of entry.ord sig) entry_price
              (⟨"success", 200⟩,
                initCalls ++ lev.calls ++ entry.calls ++ slTp.2 ++ [Call.notify])
            | none =>
              (⟨"error", 500⟩, initCalls ++ lev.calls ++ entry.calls ++ [Call.notify])

/-- Whether a leg's venue call failed (any exception). -/
def legFailed : ApiResult Unit → Bool
  | .ok _ => false
  | _ => true

-- ## Helper lemmas

theorem set_leverage_calls (resp : ApiResult LevResponse) (lev : Nat) :
    (set_leverage true resp lev).calls = [Call.changeLeverage TRADE_SYMBOL lev] := by
  cases resp with
  | ok r =>
    by_cases hr : r.leverage = some lev <;> simp [set_leverage, hr]
  | clientError st code m =>
    cases hm : containsSub m "No need to change leverage" <;> simp [set_leverage, hm]
  | exn m => simp [set_leverage]

theorem place_entry_order_calls (resp : ApiResult OrderDict) (sig : String)
    (q : PyFloat) :
    (place_entry_order true resp sig q).calls =
      [Call.newOrder TRADE_SYMBOL (if pyUpper sig = "BUY" then "BUY" else "SELL")
        "MARKET" (some q) none false false none] := by
  cases resp with
  | ok order =>
    cases hg : (orderIdTruthy order.orderId && okStatus order.status)
    · simp [place_entry_order, hg]
    · simp only [place_entry_order, hg]
      simp
      cases resolve_fill_price (order.avgPrice.getD (PyFloat.num 0))
        (order.executedQty.getD (PyFloat.num 0))
        (order.cumQuote.getD (PyFloat.num 0)) <;> rfl
  | clientError st code m => simp [place_entry_order]
  | exn m => simp [place_entry_order]

theorem cancelLoop_all_attempted (res : Nat → ApiResult Unit) (ids : List Nat)
    (h : ∀ oid ∈ ids, res oid = .ok () ∨ ∃ st m, res oid = .clientError st (-2011) m) :
    cancelLoop res ids = ids.map (Call.cancelOrder TRADE_SYMBOL) := by
  induction ids with
  | nil => rfl
  | cons a rest ih =>
    have hrest := ih fun o ho => h o (by simp [ho])
    rcases h a (by simp) with ha | ⟨st, m, ha⟩
    · simp [cancelLoop, ha, hrest]
    · simp [cancelLoop, ha, hrest]

theorem cancelLoop_shape (res : Nat → ApiResult Unit) (ids : List Nat) :
    ∀ c ∈ cancelLoop res ids, ∃ oid, c = Call.cancelOrder TRADE_SYMBOL oid := by
  induction ids with
  | nil => simp [cancelLoop]
  | cons a rest ih =>
    intro c hc
    cases hres : res a with
    | ok v =>
      rw [cancelLoop] at hc
      simp only [hres] at hc
      rcases List.mem_cons.mp hc with h | h
      · exact ⟨a, h⟩
      · exact ih c h
    | clientError st code m =>
      rw [cancelLoop] at hc
      simp only [hres] at hc
      by_cases hcode : code = -2011
      · rw [if_pos hcode] at hc
        rcases List.mem_cons.mp hc with h | h
        · exact ⟨a, h⟩
        · exact ih c h
      · rw [if_neg hcode] at hc
        rcases List.mem_cons.mp hc with h | h
        · exact ⟨a, h⟩
        · simp at h
    | exn m =>
      rw [cancelLoop] at hc
      simp only [hres] at hc
      rcases List.mem_cons.mp hc with h | h
      · exact ⟨a, h⟩
      · exact ih c h

-- ## C1

/-- C1: fill-price resolution of the entry executor follows the three-step
policy: a parsed `avgPrice > 0` (e.g. `123.4`) is taken as the resolved
price whatever the other fill fields hold; otherwise with
`executedQty > 0` the price is `cumQuote / executedQty` (so `0, 2, 100`
resolves to exactly `50`); otherwise the outcome is the distinguished
indeterminate-fill state — never a resolved price (in particular never a
price of `0`) — and it is not a failure: `place_entry_order` still returns
the order dict rather than `none`. -/
theorem C1_fill_price_resolution :
    (∀ e c : PyFloat, resolve_fill_price (PyFloat.num 123.4) e c
        = .fromAvgPrice (PyFloat.num 123.4)) ∧
    resolve_fill_price (PyFloat.num 0) (PyFloat.num 2) (PyFloat.num 100)
        = .derived (PyFloat.num 50) ∧
    (∀ a c : PyFloat, a.gt (PyFloat.num 0) = false →
        resolve_fill_price a (PyFloat.num 0) c = .indeterminateFill ∧
        ∀ p : PyFloat, resolve_fill_price a (PyFloat.num 0) c ≠ .fromAvgPrice p ∧
          resolve_fill_price a (PyFloat.num 0) c ≠ .derived p) ∧
    (∀ (order : OrderDict) (sig : String) (q : PyFloat),
        (orderIdTruthy order.orderId && okStatus order.status) = true →
        (place_entry_order true (.ok order) sig q).ord ≠ none) := by
  refine ⟨?_, ?_, ?_, ?_⟩
  · intro e c
    have h : (PyFloat.num 123.4).gt (PyFloat.num 0) = true := by
      simp [PyFloat.gt]; norm_num
    simp [resolve_fill_price, h]
  · simp [resolve_fill_price, PyFloat.gt, PyFloat.div]
    norm_num
  · intro a c ha
    have h0 : (PyFloat.num 0).gt (PyFloat.num 0) = false := by decide
    have h : resolve_fill_price a (PyFloat.num 0) c = .indeterminateFill := by
      simp [resolve_fill_price, ha, h0]
    exact ⟨h, fun p => by simp [h]⟩
  · intro order sig q hg
    simp only [place_entry_order, hg]
    simp
    cases resolve_fill_price (order.avgPrice.getD (PyFloat.num 0))
      (order.executedQty.getD (PyFloat.num 0))
      (order.cumQuote.getD (PyFloat.num 0)) <;> simp

theorem C1_fill_price_resolution_witness :
    resolve_fill_price (PyFloat.num 0) (PyFloat.num 0) (PyFloat.num 100)
        = .indeterminateFill ∧
    (place_entry_order true
        (.ok ⟨some 7, "FILLED", some (PyFloat.num 0), some (PyFloat.num 0),
          some (PyFloat.num 0), some "BUY"⟩) "BUY" (PyFloat.num 1)).ord ≠ none :=
  ⟨(C1_fill_price_resolution.2.2.1 (PyFloat.num 0) (PyFloat.num 100) (by decide)).1,
    C1_fill_price_resolution.2.2.2 _ "BUY" (PyFloat.num 1) (by decide)⟩

-- ## C7

/-- C7: leverage setting is idempotent at the result level: a `ClientError`
whose message contains "No need to change leverage" is treated as success,
and a normal response is always success, so a repeated `set_leverage` with
the same target never fails solely because the value already matches. -/
theorem C7_leverage_idempotent (st code : Int) (m : String) (lev : Nat)
    (h : containsSub m "No need to change leverage" = true) :
    (set_leverage true (.clientError st code m) lev).ok = true ∧
    ∀ r : LevResponse, (set_leverage true (.ok r) lev).ok = true := by
  constructor
  · simp [set_leverage, h]
  · intro r
    by_cases hr : r.leverage = some lev <;> simp [set_leverage, hr]

theorem C7_leverage_idempotent_witness :
    (set_leverage true
      (.clientError 400 (-4046) "No need to change leverage") 125).ok = true :=
  (C7_leverage_idempotent 400 (-4046) "No need to change leverage" 125
    (by unfold containsSub; exact decide_eq_true (List.infix_refl _))).1

-- ## C3

/-- C3: bracket price derivation: for a positive fill price `P`, a long
(BUY) entry yields stop-loss `P - FIXED_STOP_LOSS_POINTS` and take-profit
`P + FIXED_TAKE_PROFIT_POINTS`; a short (SELL) entry yields stop-loss
`P + FIXED_STOP_LOSS_POINTS` and take-profit
`P - FIXED_TAKE_PROFIT_POINTS`; each rounded to the 0.1 price increment
(`formatTenth`), and the two protective orders are placed on the side
opposite the entry with `closePosition` set. -/
theorem C3_bracket_derivation (P : ℚ) (_hP : 0 < P) (benv : BracketEnv) :
    stop_loss_price_str "BUY" P = formatTenth (P - FIXED_STOP_LOSS_POINTS) ∧
    take_profit_price_str "BUY" P = formatTenth (P + FIXED_TAKE_PROFIT_POINTS) ∧
    stop_loss_price_str "SELL" P = formatTenth (P + FIXED_STOP_LOSS_POINTS) ∧
    take_profit_price_str "SELL" P = formatTenth (P - FIXED_TAKE_PROFIT_POINTS) ∧
    (∃ pre, (place_sl_tp_orders true benv "BUY" P).2
        = pre ++ [Call.newOrder TRADE_SYMBOL "SELL" "STOP_MARKET" none
              (some (formatTenth (P - FIXED_STOP_LOSS_POINTS))) true false (some "GTC"),
            Call.newOrder TRADE_SYMBOL "SELL" "TAKE_PROFIT_MARKET" none
              (some (formatTenth (P + FIXED_TAKE_PROFIT_POINTS))) true false (some "GTC")]) ∧
    (∃ pre, (place_sl_tp_orders true benv "SELL" P).2
        = pre ++ [Call.newOrder TRADE_SYMBOL "BUY" "STOP_MARKET" none
              (some (formatTenth (P + FIXED_STOP_LOSS_POINTS))) true false (some "GTC"),
            Call.newOrder TRADE_SYMBOL "BUY" "TAKE_PROFIT_MARKET" none
              (some (formatTenth (P - FIXED_TAKE_PROFIT_POINTS))) true false (some "GTC")]) := by
  have hb : is_long_side "BUY" = true := by decide
  have hs : is_long_side "SELL" = false := by decide
  refine ⟨by simp [stop_loss_price_str, hb], by simp [take_profit_price_str, hb],
    by simp [stop_loss_price_str, hs], by simp [take_profit_price_str, hs],
    ⟨cancelPhase benv, ?_⟩, ⟨cancelPhase benv, ?_⟩⟩
  · simp [place_sl_tp_orders, slOrderEvent, tpOrderEvent, close_side,
      stop_loss_price_str, take_profit_price_str, hb]
  · simp [place_sl_tp_orders, slOrderEvent, tpOrderEvent, close_side,
      stop_loss_price_str, take_profit_price_str, hs]

theorem C3_bracket_derivation_witness :
    (0 : ℚ) < 50000 ∧
    stop_loss_price_str "BUY" 50000 = formatTenth (50000 - FIXED_STOP_LOSS_POINTS) :=
  ⟨by norm_num,
    (C3_bracket_derivation 50000 (by norm_num) ⟨.ok [], fun _ => .ok (), .ok (), .ok ()⟩).1⟩

-- ## C6

/-- C6: before placing the new protective orders the bracket step lists the
open orders and attempts a cancellation for every existing
STOP_MARKET/TAKE_PROFIT_MARKET order; a cancellation answered with venue
code `-2011` (order already gone) does not abort the loop, and the result
status is independent of the listing/cancellation phase — in particular an
empty list of stale orders is not an error. -/
theorem C6_stale_bracket_cleanup (benv : BracketEnv) (side : String) (p : ℚ)
    (orders : List OpenOrder)
    (hOpen : benv.openOrders = .ok orders)
    (hCancel : ∀ oid, benv.cancelRes oid = .ok () ∨
        ∃ st m, benv.cancelRes oid = .clientError st (-2011) m) :
    (place_sl_tp_orders true benv side p).2 =
      Call.getOpenOrders TRADE_SYMBOL ::
        ((slTpOrderIds orders).map (Call.cancelOrder TRADE_SYMBOL) ++
          [slOrderEvent side p, tpOrderEvent side p]) ∧
    ∀ benv2 : BracketEnv, benv2.slRes = benv.slRes → benv2.tpRes = benv.tpRes →
      (place_sl_tp_orders true benv2 side p).1 = (place_sl_tp_orders true benv side p).1 := by
  constructor
  · have hloop := cancelLoop_all_attempted benv.cancelRes (slTpOrderIds orders)
      (fun oid _ => hCancel oid)
    simp [place_sl_tp_orders, cancelPhase, hOpen, hloop, slOrderEvent, tpOrderEvent]
  · intro benv2 h1 h2
    simp [place_sl_tp_orders, h1, h2]

/-- Bracket environment used to witness C6: two stale protective orders,
one of which is already gone (venue code `-2011`). -/
def benvC6 : BracketEnv :=
  ⟨.ok [⟨11, "STOP_MARKET"⟩, ⟨12, "LIMIT"⟩, ⟨13, "TAKE_PROFIT_MARKET"⟩],
    fun n => if n = 11 then .clientError 400 (-2011) "Unknown order sent." else .ok (),
    .ok (), .ok ()⟩

theorem C6_stale_bracket_cleanup_witness :
    (place_sl_tp_orders true benvC6 "BUY" 50000).2 =
      Call.getOpenOrders TRADE_SYMBOL ::
        ((slTpOrderIds [⟨11, "STOP_MARKET"⟩, ⟨12, "LIMIT"⟩, ⟨13, "TAKE_PROFIT_MARKET"⟩]).map
            (Call.cancelOrder TRADE_SYMBOL) ++
          [slOrderEvent "BUY" 50000, tpOrderEvent "BUY" 50000]) :=
  (C6_stale_bracket_cleanup benvC6 "BUY" 50000
    [⟨11, "STOP_MARKET"⟩, ⟨12, "LIMIT"⟩, ⟨13, "TAKE_PROFIT_MARKET"⟩] rfl
    (fun oid => by
      by_cases h : oid = 11
      · exact Or.inr ⟨400, "Unknown order sent.", by simp [benvC6, h]⟩
      · exact Or.inl (by simp [benvC6, h]))).1

-- ## Webhook unfolding helper

theorem webhook_valid_eq (env : Env) (d : Payload) (q : PyFloat)
    (hc : env.clientOk = true)
    (hact : signal_type d = "BUY" ∨ signal_type d = "SELL")
    (hqv : validate_qty d.qty = some q) :
    webhook env (some d) =
      (let lev := set_leverage true env.levResp LEVERAGE
       if lev.ok = false then (⟨"error", 500⟩, lev.calls ++ [Call.notify])
       else
         let entry := place_entry_order true env.entryResp (signal_type d) q
         match entryAvgPriceGate entry.ord with
         | some entry_price =>
           let slTp := place_sl_tp_orders true env.bracket
             (order_side_of entry.ord (signal_type d)) entry_price
           (⟨"success", 200⟩, lev.calls ++ entry.calls ++ slTp.2 ++ [Call.notify])
         | none => (⟨"error", 500⟩, lev.calls ++ entry.calls ++ [Call.notify])) := by
  rw [webhook]
  rw [if_neg (by simp [hc])]
  simp only [hc, if_true]
  rw [if_neg (not_not_intro hact)]
  rw [hqv]
  simp only [List.nil_append]

-- ## C2

/-- C2: for every inbound signal with a valid action and a quantity passing
validation, the leverage-configuration call is the first outbound exchange
call — it precedes any entry submission — and if the leverage call reports
failure the flow returns an error with no market order ever submitted. -/
theorem C2_leverage_precedes_entry (env : Env) (d : Payload)
    (hc : env.clientOk = true)
    (hact : signal_type d = "BUY" ∨ signal_type d = "SELL")
    (hq : validate_qty d.qty ≠ none) :
    (webhook env (some d)).2.head? = some (Call.changeLeverage TRADE_SYMBOL LEVERAGE) ∧
    ((set_leverage true env.levResp LEVERAGE).ok = false →
      ((webhook env (some d)).1 = ⟨"error", 500⟩ ∧
        ∀ c ∈ (webhook env (some d)).2, isMarketOrder c = false)) := by
  obtain ⟨q, hqv⟩ : ∃ q, validate_qty d.qty = some q := by
    cases hv : validate_qty d.qty
    · exact absurd hv hq
    · exact ⟨_, rfl⟩
  rw [webhook_valid_eq env d q hc hact hqv]
  have hlev := set_leverage_calls env.levResp LEVERAGE
  cases hok : (set_leverage true env.levResp LEVERAGE).ok
  · constructor
    · simp [hok, hlev]
    · intro _
      constructor
      · simp [hok]
      · intro c hcmem
        simp only [hok, if_true, hlev] at hcmem
        simp at hcmem
        rcases hcmem with h | h <;> simp [h, isMarketOrder]
  · constructor
    · cases hgate : entryAvgPriceGate (place_entry_order true env.entryResp (signal_type d) q).ord <;>
        simp [hok, hlev, hgate]
    · intro hfalse
      exact absurd hfalse (by simp)

theorem C2_leverage_precedes_entry_witness :
    (webhook ⟨true, true, .clientError 400 (-1000) "rejected",
        .ok ⟨some 7, "FILLED", some (PyFloat.num 100), some (PyFloat.num 1),
          some (PyFloat.num 100), some "BUY"⟩,
        ⟨.ok [], fun _ => .ok (), .ok (), .ok ()⟩⟩
      (some ⟨some "BUY", some "2", none, none⟩)).2.head?
      = some (Call.changeLeverage TRADE_SYMBOL LEVERAGE) :=
  (C2_leverage_precedes_entry _ _ rfl (Or.inl (by decide)) (by decide)).1

-- ## C9

/-- A call addressed to the fixed symbol, with the fixed leverage if it is
a leverage call. -/
def goodCall (c : Call) : Prop :=
  (∀ s, callSymbol c = some s → s = TRADE_SYMBOL) ∧
  (∀ sym lv, c = Call.changeLeverage sym lv → lv = LEVERAGE)

theorem goodCall_notify : goodCall Call.notify := by
  constructor
  · intro s h; simp [callSymbol] at h
  · intro sym lv h; simp at h

theorem goodCall_changeLev : goodCall (Call.changeLeverage TRADE_SYMBOL LEVERAGE) := by
  constructor
  · intro s h
    exact (Option.some.inj h).symm
  · intro sym lv h
    injection h with h1 h2
    exact h2.symm

theorem goodCall_newOrder (side otype : String) (qy : Option PyFloat)
    (sp : Option String) (cp ro : Bool) (tif : Option String) :
    goodCall (Call.newOrder TRADE_SYMBOL side otype qy sp cp ro tif) := by
  constructor
  · intro s h
    exact (Option.some.inj h).symm
  · intro sym lv h; simp at h

theorem goodCall_getOpen : goodCall (Call.getOpenOrders TRADE_SYMBOL) := by
  constructor
  · intro s h
    exact (Option.some.inj h).symm
  · intro sym lv h; simp at h

theorem goodCall_cancel (oid : Nat) : goodCall (Call.cancelOrder TRADE_SYMBOL oid) := by
  constructor
  · intro s h
    exact (Option.some.inj h).symm
  · intro sym lv h; simp at h

theorem goodCall_initCalls (b : Bool) :
    ∀ c ∈ (if b then ([] : List Call) else [Call.notify]), goodCall c := by
  cases b
  · intro c hc
    simp at hc
    subst hc
    exact goodCall_notify
  · intro c hc
    simp at hc

theorem goodCall_set_leverage (resp : ApiResult LevResponse) :
    ∀ c ∈ (set_leverage true resp LEVERAGE).calls, goodCall c := by
  rw [set_leverage_calls]
  intro c hc
  simp at hc
  subst hc
  exact goodCall_changeLev

theorem goodCall_entry (resp : ApiResult OrderDict) (sig : String) (q : PyFloat) :
    ∀ c ∈ (place_entry_order true resp sig q).calls, goodCall c := by
  rw [place_entry_order_calls]
  intro c hc
  simp at hc
  subst hc
  exact goodCall_newOrder _ _ _ _ _ _ _

theorem goodCall_bracket (benv : BracketEnv) (side : String) (p : ℚ) :
    ∀ c ∈ (place_sl_tp_orders true benv side p).2, goodCall c := by
  intro c hc
  rw [place_sl_tp_orders] at hc
  simp only [Bool.true_eq_false, if_false] at hc
  rcases List.mem_append.mp hc with h | h
  · rw [cancelPhase] at h
    rcases List.mem_cons.mp h with h1 | h1
    · subst h1
      exact goodCall_getOpen
    · have h2 : ∃ oid, c = Call.cancelOrder TRADE_SYMBOL oid := by
        cases hoo : benv.openOrders with
        | ok oo =>
          rw [hoo] at h1
          exact cancelLoop_shape benv.cancelRes (slTpOrderIds oo) c h1
        | clientError st code m => rw [hoo] at h1; simp at h1
        | exn m => rw [hoo] at h1; simp at h1
      obtain ⟨oid, rfl⟩ := h2
      exact goodCall_cancel oid
  · rcases List.mem_cons.mp h with h1 | h1
    · subst h1
      exact goodCall_newOrder _ _ _ _ _ _ _
    · simp at h1
      subst h1
      exact goodCall_newOrder _ _ _ _ _ _ _

theorem webhook_calls_fixed (env : Env) (data : Option Payload) :
    ∀ c ∈ (webhook env data).2, goodCall c := by
  intro c hc
  rw [webhook] at hc
  by_cases h1 : env.clientOk = false ∧ env.reinitOk = false
  · rw [if_pos h1] at hc
    simp at hc
    subst hc
    exact goodCall_notify
  · rw [if_neg h1] at hc
    cases data with
    | none =>
      simp only at hc
      exact goodCall_initCalls env.clientOk c hc
    | some d =>
      simp only at hc
      by_cases h2 : ¬(signal_type d = "BUY" ∨ signal_type d = "SELL")
      · rw [if_pos h2] at hc
        exact goodCall_initCalls env.clientOk c hc
      · rw [if_neg h2] at hc
        cases hv : validate_qty d.qty with
        | none =>
          rw [hv] at hc
          simp only at hc
          rcases List.mem_append.mp hc with h | h
          · exact goodCall_initCalls env.clientOk c h
          · simp at h; subst h; exact goodCall_notify
        | some q =>
          rw [hv] at hc
          simp only at hc
          by_cases hok : (set_leverage true env.levResp LEVERAGE).ok = false
          · rw [if_pos hok] at hc
            rcases List.mem_append.mp hc with h | h
            rcases List.mem_append.mp h with h' | h'
            · exact goodCall_initCalls env.clientOk c h'
            · exact goodCall_set_leverage env.levResp c h'
            · simp at h; subst h; exact goodCall_notify
          · rw [if_neg hok] at hc
            cases hg : entryAvgPriceGate
                (place_entry_order true env.entryResp (signal_type d) q).ord with
            | none =>
              rw [hg] at hc
              simp only at hc
              rcases List.mem_append.mp hc with h | h
              rcases List.mem_append.mp h with h' | h'
              rcases List.mem_append.mp h' with h'' | h''
              · exact goodCall_initCalls env.clientOk c h''
              · exact goodCall_set_leverage env.levResp c h''
              · exact goodCall_entry env.entryResp (signal_type d) q c h'
              · simp at h; subst h; exact goodCall_notify
            | some ep =>
              rw [hg] at hc
              simp only at hc
              rcases List.mem_append.mp hc with h | h
              rcases List.mem_append.mp h with h' | h'
              rcases List.mem_append.mp h' with h'' | h''
              rcases List.mem_append.mp h'' with h3 | h3
              · exact goodCall_initCalls env.clientOk c h3
              · exact goodCall_set_leverage env.levResp c h3
              · exact goodCall_entry env.entryResp (signal_type d) q c h''
              · exact goodCall_bracket env.bracket _ ep c h'
              · simp at h; subst h; exact goodCall_notify

/-- C9: the exchange operations are independent of the payload's
instrument/ticker and other display-only fields — two payloads agreeing on
`action` and `qty` produce identical behaviour — and every exchange call
is addressed to the fixed `TRADE_SYMBOL = "BTCUSDC"`, with every leverage
call using the fixed `LEVERAGE = 125`. -/
theorem C9_fixed_symbol_and_leverage (env : Env) (d₁ d₂ : Payload)
    (ha : d₁.action = d₂.action) (hq : d₁.qty = d₂.qty) :
    webhook env (some d₁) = webhook env (some d₂) ∧
    (∀ c ∈ (webhook env (some d₁)).2, ∀ s, callSymbol c = some s → s = TRADE_SYMBOL) ∧
    (∀ c ∈ (webhook env (some d₁)).2, ∀ sym lv,
      c = Call.changeLeverage sym lv → lv = LEVERAGE) := by
  refine ⟨?_, fun c hc => (webhook_calls_fixed env (some d₁) c hc).1,
    fun c hc => (webhook_calls_fixed env (some d₁) c hc).2⟩
  have h1 : signal_type d₁ = signal_type d₂ := by rw [signal_type, signal_type, ha]
  have h2 : validate_qty d₁.qty = validate_qty d₂.qty := by rw [hq]
  simp only [webhook]
  rw [h1, h2]

theorem C9_fixed_symbol_and_leverage_witness :
    webhook ⟨true, true, .ok ⟨some 125⟩,
        .ok ⟨some 7, "FILLED", some (PyFloat.num 100), some (PyFloat.num 1),
          some (PyFloat.num 100), some "BUY"⟩,
        ⟨.ok [], fun _ => .ok (), .ok (), .ok ()⟩⟩
      (some ⟨some "BUY", some "2", some "BTCUSDT", some "101"⟩) =
    webhook ⟨true, true, .ok ⟨some 125⟩,
        .ok ⟨some 7, "FILLED", some (PyFloat.num 100), some (PyFloat.num 1),
          some (PyFloat.num 100), some "BUY"⟩,
        ⟨.ok [], fun _ => .ok (), .ok (), .ok ()⟩⟩
      (some ⟨some "BUY", some "2", some "ETHUSD", none⟩) :=
  (C9_fixed_symbol_and_leverage _
    ⟨some "BUY", some "2", some "BTCUSDT", some "101"⟩
    ⟨some "BUY", some "2", some "ETHUSD", none⟩ rfl rfl).1

-- ## C10

/-- C10: quantity validation does not guarantee a positive quantity: the
qty string "nan" parses to a float, `nan <= 0` is false, so the guard
passes and a MARKET entry order is attempted with a NaN quantity; in
general the guard rejects exactly the inputs that fail to parse or whose
parsed value compares `<= 0`. -/
theorem C10_nan_quantity_passes (env : Env) (d : Payload)
    (hc : env.clientOk = true) (hact : signal_type d = "BUY")
    (hq : d.qty = some "nan")
    (hlev : (set_leverage true env.levResp LEVERAGE).ok = true) :
    pyFloatOfString "nan" = some PyFloat.nan ∧
    PyFloat.le PyFloat.nan (PyFloat.num 0) = false ∧
    validate_qty (some "nan") = some PyFloat.nan ∧
    (∀ f, validate_qty f = none ↔
      (parse_qty_field f = none ∨
        ∃ q, parse_qty_field f = some q ∧ q.le (PyFloat.num 0) = true)) ∧
    Call.newOrder TRADE_SYMBOL "BUY" "MARKET" (some PyFloat.nan) none false false none
      ∈ (webhook env (some d)).2 := by
  refine ⟨by decide, by decide, by decide, ?_, ?_⟩
  · intro f
    cases hp : parse_qty_field f with
    | none => rw [validate_qty]; simp [hp]
    | some q =>
      rw [validate_qty]
      cases hle : q.le (PyFloat.num 0) <;> simp [hp, hle]
  · have hv : validate_qty d.qty = some PyFloat.nan := by rw [hq]; decide
    rw [webhook_valid_eq env d PyFloat.nan hc (Or.inl hact) hv]
    rw [if_neg (by simp [hlev])]
    have hcalls := place_entry_order_calls env.entryResp (signal_type d) PyFloat.nan
    rw [hact] at hcalls
    rw [hact]
    have hside : (if pyUpper "BUY" = "BUY" then "BUY" else "SELL") = "BUY" := by decide
    rw [hside] at hcalls
    cases hg : entryAvgPriceGate
        (place_entry_order true env.entryResp "BUY" PyFloat.nan).ord <;>
      simp [hg, hcalls]

theorem C10_nan_quantity_passes_witness :
    Call.newOrder TRADE_SYMBOL "BUY" "MARKET" (some PyFloat.nan) none false false none
      ∈ (webhook ⟨true, true, .ok ⟨some 125⟩,
          .ok ⟨some 7, "FILLED", some (PyFloat.num 100), some (PyFloat.num 1),
            some (PyFloat.num 100), some "BUY"⟩,
          ⟨.ok [], fun _ => .ok (), .ok (), .ok ()⟩⟩
        (some ⟨some "BUY", some "nan", none, none⟩)).2 :=
  (C10_nan_quantity_passes _ ⟨some "BUY", some "nan", none, none⟩
    rfl (by decide) rfl (by decide)).2.2.2.2

-- ## C4: character-level lemmas about the status string

/-- The characters a formatted price can contain. -/
def priceChars : List Char := ['-', '.', '0', '1', '2', '3', '4', '5', '6', '7', '8', '9']

theorem digitChr_mem (d : Nat) : digitChr d ∈ priceChars := by
  rw [digitChr]
  have h : d % 10 < 10 := Nat.mod_lt _ (by norm_num)
  generalize hm : d % 10 = m at h ⊢
  interval_cases m <;> decide

theorem natStrAux_chars (fuel : Nat) :
    ∀ n, ∀ c ∈ natStrAux fuel n, c ∈ priceChars := by
  induction fuel with
  | zero => intro n c hc; simp [natStrAux] at hc
  | succ f ih =>
    intro n c hc
    rw [natStrAux] at hc
    by_cases hn : n = 0
    · rw [if_pos hn] at hc; simp at hc
    · rw [if_neg hn] at hc
      rcases List.mem_append.mp hc with h | h
      · exact ih _ c h
      · simp at h
        subst h
        exact digitChr_mem _

theorem natStr_chars (n : Nat) : ∀ c ∈ (natStr n).data, c ∈ priceChars := by
  intro c hc
  rw [natStr] at hc
  by_cases hn : n = 0
  · rw [if_pos hn] at hc
    simp at hc
    subst hc
    decide
  · rw [if_neg hn] at hc
    exact natStrAux_chars n n c hc

theorem formatTenth_chars (x : ℚ) : ∀ c ∈ (formatTenth x).data, c ∈ priceChars := by
  intro c hc
  rw [formatTenth] at hc
  simp only [String.data_append] at hc
  rcases List.mem_append.mp hc with h | h
  · rcases List.mem_append.mp h with h1 | h1
    · rcases List.mem_append.mp h1 with h2 | h2
      · by_cases hneg : roundHalfEven (10 * x) < 0
        · rw [if_pos hneg] at h2
          simp at h2
          subst h2
          decide
        · rw [if_neg hneg] at h2
          simp at h2
      · exact natStr_chars _ c h2
    · simp at h1
      subst h1
      decide
  · exact natStr_chars _ c h

theorem cross_not_in_formatTenth (x : ℚ) : '❌' ∉ (formatTenth x).data := by
  intro h
  exact absurd (formatTenth_chars x '❌' h) (by decide)

theorem prefix_infix_append {α : Type} {l m r : List α} (h : l <+: m) :
    l <:+: m ++ r := by
  obtain ⟨t, ht⟩ := h
  exact ⟨[], t ++ r, by rw [List.nil_append, ← List.append_assoc, ht]⟩

theorem prefix_infix_append_left {α : Type} {l m r : List α} (h : l <+: m) :
    l <:+: r ++ m := by
  obtain ⟨t, ht⟩ := h
  exact ⟨r, t, by rw [List.append_assoc, ht]⟩

theorem cross_in_sl_fail (r : ApiResult Unit) (side : String) (p : ℚ)
    (h : legFailed r = true) : '❌' ∈ (sl_status_line r side p).data := by
  cases r with
  | ok v => simp [legFailed] at h
  | clientError st code m =>
    rw [sl_status_line]
    simp only [String.data_append]
    exact List.mem_append.mpr (Or.inl (List.mem_append.mpr (Or.inl (by decide))))
  | exn m =>
    rw [sl_status_line]
    simp only [String.data_append]
    exact List.mem_append.mpr (Or.inl (List.mem_append.mpr (Or.inl (by decide))))

theorem cross_in_tp_fail (r : ApiResult Unit) (side : String) (p : ℚ)
    (h : legFailed r = true) : '❌' ∈ (tp_status_line r side p).data := by
  cases r with
  | ok v => simp [legFailed] at h
  | clientError st code m =>
    rw [tp_status_line]
    simp only [String.data_append]
    exact List.mem_append.mpr (Or.inl (by decide))
  | exn m =>
    rw [tp_status_line]
    simp only [String.data_append]
    exact List.mem_append.mpr (Or.inl (by decide))

theorem cross_not_in_sl_ok (v : Unit) (side : String) (p : ℚ) :
    '❌' ∉ (sl_status_line (.ok v) side p).data := by
  rw [sl_status_line]
  simp only [String.data_append]
  intro h
  rcases List.mem_append.mp h with h1 | h1
  · rcases List.mem_append.mp h1 with h2 | h2
    · exact absurd h2 (by decide)
    · exact cross_not_in_formatTenth _ h2
  · exact absurd h1 (by decide)

theorem cross_not_in_tp_ok (v : Unit) (side : String) (p : ℚ) :
    '❌' ∉ (tp_status_line (.ok v) side p).data := by
  rw [tp_status_line]
  simp only [String.data_append]
  intro h
  rcases List.mem_append.mp h with h1 | h1
  · exact absurd h1 (by decide)
  · exact cross_not_in_formatTenth _ h1

theorem legFailed_false_ok (r : ApiResult Unit) (h : legFailed r = false) :
    r = .ok () := by
  cases r with
  | ok v => rfl
  | clientError st code m => simp [legFailed] at h
  | exn m => simp [legFailed] at h

theorem bracket_status_eq (benv : BracketEnv) (side : String) (p : ℚ) :
    (place_sl_tp_orders true benv side p).1 =
      sl_status_line benv.slRes side p ++ tp_status_line benv.tpRes side p := by
  simp [place_sl_tp_orders]

/-- C4: partial bracket failure is observable: the returned status is the
concatenation of an independent stop-loss line and take-profit line; when
exactly one leg fails the status contains the failure mark `❌` while the
succeeding leg's `✅`-marker is still present, and the status differs from
every status a fully successful bracket can produce. -/
theorem C4_partial_bracket_observable (benv : BracketEnv) (side : String) (p : ℚ)
    (hmix : legFailed benv.slRes ≠ legFailed benv.tpRes) :
    (place_sl_tp_orders true benv side p).1 =
      sl_status_line benv.slRes side p ++ tp_status_line benv.tpRes side p ∧
    '❌' ∈ ((place_sl_tp_orders true benv side p).1).data ∧
    (legFailed benv.slRes = false →
      "✅ Stop-Loss target".data <:+: ((place_sl_tp_orders true benv side p).1).data) ∧
    (legFailed benv.tpRes = false →
      "✅ Take-Profit target".data <:+: ((place_sl_tp_orders true benv side p).1).data) ∧
    (∀ (benv2 : BracketEnv) (side2 : String) (p2 : ℚ),
      legFailed benv2.slRes = false → legFailed benv2.tpRes = false →
      (place_sl_tp_orders true benv2 side2 p2).1 ≠ (place_sl_tp_orders true benv side p).1) := by
  have hst := bracket_status_eq benv side p
  have hcross : '❌' ∈ ((place_sl_tp_orders true benv side p).1).data := by
    rw [hst, String.data_append]
    cases hsl : legFailed benv.slRes with
    | true => exact List.mem_append.mpr (Or.inl (cross_in_sl_fail _ _ _ hsl))
    | false =>
      cases htp : legFailed benv.tpRes with
      | true => exact List.mem_append.mpr (Or.inr (cross_in_tp_fail _ _ _ htp))
      | false => rw [hsl, htp] at hmix; exact absurd rfl hmix
  refine ⟨hst, hcross, ?_, ?_, ?_⟩
  · intro hsl
    rw [hst, String.data_append]
    rw [legFailed_false_ok _ hsl, sl_status_line]
    apply prefix_infix_append
    rw [String.data_append, String.data_append]
    exact List.IsPrefix.trans (List.IsPrefix.trans (by decide) (List.prefix_append _ _))
      (List.prefix_append _ _)
  · intro htp
    rw [hst, String.data_append]
    rw [legFailed_false_ok _ htp, tp_status_line]
    apply prefix_infix_append_left
    rw [String.data_append]
    exact List.IsPrefix.trans (by decide) (List.prefix_append _ _)
  · intro benv2 side2 p2 hsl2 htp2 heq
    have hnc : '❌' ∉ ((place_sl_tp_orders true benv2 side2 p2).1).data := by
      rw [bracket_status_eq, String.data_append]
      rw [legFailed_false_ok _ hsl2, legFailed_false_ok _ htp2]
      intro h
      rcases List.mem_append.mp h with h1 | h1
      · exact cross_not_in_sl_ok () side2 p2 h1
      · exact cross_not_in_tp_ok () side2 p2 h1
    rw [heq] at hnc
    exact hnc hcross

/-- Bracket environment used to witness C4: the stop-loss leg is rejected
by the venue while the take-profit leg succeeds. -/
def benvC4 : BracketEnv :=
  ⟨.ok [], fun _ => .ok (), .clientError 400 (-2021) "Order would immediately trigger.", .ok ()⟩

theorem C4_partial_bracket_observable_witness :
    '❌' ∈ ((place_sl_tp_orders true benvC4 "BUY" 50000).1).data ∧
    "✅ Take-Profit target".data <:+: ((place_sl_tp_orders true benvC4 "BUY" 50000).1).data :=
  ⟨(C4_partial_bracket_observable benvC4 "BUY" 50000 (by decide)).2.1,
    (C4_partial_bracket_observable benvC4 "BUY" 50000 (by decide)).2.2.2.1 (by decide)⟩

-- ## C5

/-- C5 counterexample: there is no close-position operation.  A `close`
signal, with the venue reporting a short position (the environment is
irrelevant: no position query exists in the code), is rejected by the
action filter: the response is `ignored, invalid action` and the call
trace is empty — no position query, no reduce-only order, in
contradiction with the claimed `closePosition` flow. -/
theorem C5_close_counterexample :
    webhook ⟨true, true, .ok ⟨some 125⟩,
        .ok ⟨some 7, "FILLED", some (PyFloat.num 100), some (PyFloat.num 1),
          some (PyFloat.num 100), some "BUY"⟩,
        ⟨.ok [], fun _ => .ok (), .ok (), .ok ()⟩⟩
      (some ⟨some "close", some "1", none, none⟩)
      = (⟨"ignored, invalid action", 200⟩, []) := by decide

/-- C5 (amended): the program provides no close-position operation: any
payload whose action is `close` is ignored as an invalid action (HTTP 200,
status `ignored, invalid action`) with zero outbound calls — no position
query and no reduce-only order ever occurs. -/
theorem C5_no_close_operation (env : Env) (d : Payload)
    (hc : env.clientOk = true) (ha : d.action = some "close") :
    webhook env (some d) = (⟨"ignored, invalid action", 200⟩, []) := by
  have hsig : signal_type d = "CLOSE" := by
    rw [signal_type, ha]; decide
  rw [webhook]
  rw [if_neg (by simp [hc])]
  simp only [hc, if_true]
  rw [if_pos (by rw [hsig]; decide)]

theorem C5_no_close_operation_witness :
    webhook ⟨true, true, .ok ⟨none⟩, .exn "unused",
        ⟨.ok [], fun _ => .ok (), .ok (), .ok ()⟩⟩
      (some ⟨some "close", some "2.0", some "BTCUSDC", none⟩)
      = (⟨"ignored, invalid action", 200⟩, []) :=
  C5_no_close_operation _ ⟨some "close", some "2.0", some "BTCUSDC", none⟩ rfl rfl

-- ## C8

/-- C8 counterexample: a payload with no `action` field is NOT handled as a
notify-only "message" action — it is rejected by the action filter with
status `ignored, invalid action` and no notification of any kind is sent
(the call trace, which records Telegram notifications too, is empty). -/
theorem C8_missing_action_counterexample :
    webhook ⟨true, true, .ok ⟨some 125⟩,
        .ok ⟨some 7, "FILLED", some (PyFloat.num 100), some (PyFloat.num 1),
          some (PyFloat.num 100), some "BUY"⟩,
        ⟨.ok [], fun _ => .ok (), .ok (), .ok ()⟩⟩
      (some ⟨none, some "1", none, none⟩)
      = (⟨"ignored, invalid action", 200⟩, []) := by decide

/-- C8 (amended): a payload with no `action` field defaults to the empty
action string, which fails the `BUY`/`SELL` filter: the request is ignored
as an invalid action (HTTP 200, status `ignored, invalid action`), no
trade is attempted and no outbound call — notification included — is
made; there is no notify-only "message" action in the code. -/
theorem C8_missing_action_ignored (env : Env) (d : Payload)
    (hc : env.clientOk = true) (ha : d.action = none) :
    webhook env (some d) = (⟨"ignored, invalid action", 200⟩, []) := by
  have hsig : signal_type d = "" := by
    rw [signal_type, ha]; decide
  rw [webhook]
  rw [if_neg (by simp [hc])]
  simp only [hc, if_true]
  rw [if_pos (by rw [hsig]; decide)]

theorem C8_missing_action_ignored_witness :
    webhook ⟨true, true, .ok ⟨none⟩, .exn "unused",
        ⟨.ok [], fun _ => .ok (), .ok (), .ok ()⟩⟩
      (some ⟨none, some "3", some "BTCUSDC", some "100"⟩)
      = (⟨"ignored, invalid action", 200⟩, []) :=
  C8_missing_action_ignored _ ⟨none, some "3", some "BTCUSDC", some "100"⟩ rfl rfl

end TradingBot
